import Mathlib

/-!
Verification of the MAX31855 thermocouple driver (`max31855.py`).

The driver performs one 4-byte SPI read, classifies degenerate frames as
transport errors, and decodes a 32-bit status word into thermocouple
temperature, internal (cold-junction) temperature and fault information.

Shallow embedding conventions:
* the 4 response bytes are modelled as four `Nat` arguments (each a byte,
  `< 256` where a claim needs it);
* Python's `(value, error)` tuple from `read_raw` becomes
  `Option Nat × Option String`;
* the result dictionary of `read_all` becomes the structure `Reading`;
* temperatures are rationals (`ℚ`): the factors 0.25 and 0.0625 and the
  integer fields involved are exactly representable in binary floating
  point, so float arithmetic in the source is exact and `ℚ` is faithful;
* Python string truthiness (`if data["fault"]:`) is modelled by `truthy`.
-/

namespace MAX31855

/-- `FAULT_OPEN = 0x01` — D0: Open circuit. -/
def FAULT_OPEN : Nat := 0x01

/-- `FAULT_GND = 0x02` — D1: Short to GND. -/
def FAULT_GND : Nat := 0x02

/-- `FAULT_VCC = 0x04` — D2: Short to VCC. -/
def FAULT_VCC : Nat := 0x04

/-- `FAULT_GENERIC = 0x10000` — D16: Any fault. -/
def FAULT_GENERIC : Nat := 0x10000

/-- `struct.unpack(">I", data)[0]`: the 4 bytes as a big-endian unsigned
32-bit integer. -/
def be32 (b0 b1 b2 b3 : Nat) : Nat :=
  ((b0 * 256 + b1) * 256 + b2) * 256 + b3

/-- `read_raw`: classify the 4 response bytes.  All-zero and all-ones frames
are transport errors; any other frame is returned as a big-endian `uint32`.
Mirrors the Python tuple return `(raw_value, error)`. -/
def read_raw (b0 b1 b2 b3 : Nat) : Option Nat × Option String :=
  if b0 = 0x00 ∧ b1 = 0x00 ∧ b2 = 0x00 ∧ b3 = 0x00 then
    (none, some "No SPI response (disconnected)")
  else if b0 = 0xFF ∧ b1 = 0xFF ∧ b2 = 0xFF ∧ b3 = 0xFF then
    (none, some "SPI bus error (all high)")
  else
    (some (be32 b0 b1 b2 b3), none)

/-- `get_fault_string`: decode fault bits into a human-readable string.
Appends the matching cause names in bit order (D0, D1, D2); if any matched,
joins them with `" + "`; otherwise reports `"Unknown Fault"` when the generic
fault bit D16 is set; otherwise `None`. -/
def get_fault_string (raw_value : Nat) : Option String :=
  let faults : List String :=
    (if raw_value &&& FAULT_OPEN ≠ 0 then ["Open Circuit"] else []) ++
    (if raw_value &&& FAULT_GND ≠ 0 then ["Short to GND"] else []) ++
    (if raw_value &&& FAULT_VCC ≠ 0 then ["Short to VCC"] else [])
  if faults ≠ [] then some (String.intercalate " + " faults)
  else if raw_value &&& FAULT_GENERIC ≠ 0 then some "Unknown Fault"
  else none

/-- Python truthiness of an optional string: `None` and `""` are falsy. -/
def truthy : Option String → Bool
  | none => false
  | some s => s ≠ ""

/-- The result dictionary of `read_all`. -/
structure Reading where
  tc_temp : Option ℚ
  internal_temp : Option ℚ
  fault : Option String
  raw : Option Nat
  connected : Bool
deriving DecidableEq, Repr

/-- The decoding part of `read_all` (source lines 78–96), the pure function
of a successfully read 32-bit frame: gate faults on D16, decode the
thermocouple field (bits 31–18, two's complement, 0.25 °C/LSB) only when the
fault string is falsy, and always decode the internal field (bits 15–4,
two's complement, 0.0625 °C/LSB). -/
def decode (raw_value : Nat) : Reading :=
  let fault : Option String :=
    if raw_value &&& FAULT_GENERIC ≠ 0 then get_fault_string raw_value
    else none
  let tc_temp : Option ℚ :=
    if truthy fault then none
    else
      let tc_raw : Int := ((raw_value >>> 18) &&& 0x3FFF : Nat)
      let tc_raw : Int :=
        if raw_value &&& 0x80000000 ≠ 0 then tc_raw - 0x4000 else tc_raw
      some ((tc_raw : ℚ) * 0.25)
  let internal_raw : Int := ((raw_value >>> 4) &&& 0x7FF : Nat)
  let internal_raw : Int :=
    if raw_value &&& 0x8000 ≠ 0 then internal_raw - 0x800 else internal_raw
  { tc_temp := tc_temp
    internal_temp := some ((internal_raw : ℚ) * 0.0625)
    fault := fault
    raw := some raw_value
    connected := true }

/-- `read_all`: one transaction then decoding.  On transport failure the
reading carries `connected = false`, the transport error message in `fault`,
and no raw value or temperatures. -/
def read_all (b0 b1 b2 b3 : Nat) : Reading :=
  match read_raw b0 b1 b2 b3 with
  | (none, error) =>
      { tc_temp := none, internal_temp := none, fault := error,
        raw := none, connected := false }
  | (some raw_value, _) => decode raw_value

/-- The value returned by the legacy `read_temp_c`: Python `False`,
Python `None`, or a float. -/
inductive LegacyTemp where
  | boolFalse
  | pyNone
  | num (t : ℚ)
deriving DecidableEq, Repr

/-- `read_temp_c`: legacy accessor.  `False` when disconnected, `None` when
the fault string is truthy, otherwise the value of `tc_temp` (which is
`None` again if that field were absent, exactly as in Python). -/
def read_temp_c (b0 b1 b2 b3 : Nat) : LegacyTemp :=
  let data := read_all b0 b1 b2 b3
  if data.connected = false then .boolFalse
  else if truthy data.fault then .pyNone
  else match data.tc_temp with
    | none => .pyNone
    | some t => .num t

end MAX31855

namespace MAX31855

/-! ## Helper lemmas -/

/-- On a non-degenerate frame `read_all` is `decode` of the big-endian word. -/
lemma read_all_eq_decode (b0 b1 b2 b3 : Nat)
    (h : (read_all b0 b1 b2 b3).connected = true) :
    read_all b0 b1 b2 b3 = decode (be32 b0 b1 b2 b3) := by
  unfold read_all read_raw at h ⊢
  split_ifs at h ⊢ <;> simp_all [be32]

/-- Field equation: the fault of a decoded reading. -/
lemma decode_fault_eq (rv : Nat) :
    (decode rv).fault =
      if rv &&& FAULT_GENERIC ≠ 0 then get_fault_string rv else none := rfl

/-- Field equation: the thermocouple temperature of a decoded reading. -/
lemma decode_tc_eq (rv : Nat) :
    (decode rv).tc_temp =
      if truthy (decode rv).fault then none
      else some
        (((if rv &&& 0x80000000 ≠ 0 then
              (((rv >>> 18) &&& 0x3FFF : Nat) : Int) - 0x4000
            else (((rv >>> 18) &&& 0x3FFF : Nat) : Int) : Int) : ℚ) * 0.25) := rfl

/-- Field equation: the internal temperature of a decoded reading. -/
lemma decode_internal_eq (rv : Nat) :
    (decode rv).internal_temp =
      some
        (((if rv &&& 0x8000 ≠ 0 then
              (((rv >>> 4) &&& 0x7FF : Nat) : Int) - 0x800
            else (((rv >>> 4) &&& 0x7FF : Nat) : Int) : Int) : ℚ) * 0.0625) := rfl

/-- Field equation: the raw word of a decoded reading. -/
lemma decode_raw_eq (rv : Nat) : (decode rv).raw = some rv := rfl

/-- Field equation: a decoded reading is connected. -/
lemma decode_connected_eq (rv : Nat) : (decode rv).connected = true := rfl

/-- With the generic fault bit D16 clear, the fault field of a decoded
reading is empty. -/
lemma decode_fault_of_bit16_clear (rv : Nat) (h : rv &&& 0x10000 = 0) :
    (decode rv).fault = none := by
  rw [decode_fault_eq]
  simp [FAULT_GENERIC, h]

/-! ## Claim theorems -/

/-- C1: for every 4-byte response frame, `read_raw` returns a transport
error exactly when the frame is all zeros (message "No SPI response
(disconnected)") or all ones 0xFFFFFFFF (message "SPI bus error (all
high)"); for every other frame it returns success carrying the frame as a
big-endian unsigned 32-bit integer, bit-exactly. -/
theorem read_raw_classifies (b0 b1 b2 b3 : Nat)
    (h0 : b0 < 256) (h1 : b1 < 256) (h2 : b2 < 256) (h3 : b3 < 256) :
    (read_raw b0 b1 b2 b3 = (none, some "No SPI response (disconnected)") ↔
      be32 b0 b1 b2 b3 = 0x00000000) ∧
    (read_raw b0 b1 b2 b3 = (none, some "SPI bus error (all high)") ↔
      be32 b0 b1 b2 b3 = 0xFFFFFFFF) ∧
    (be32 b0 b1 b2 b3 ≠ 0x00000000 → be32 b0 b1 b2 b3 ≠ 0xFFFFFFFF →
      read_raw b0 b1 b2 b3 = (some (be32 b0 b1 b2 b3), none)) := by
  have hz : be32 b0 b1 b2 b3 = 0 ↔ (b0 = 0 ∧ b1 = 0 ∧ b2 = 0 ∧ b3 = 0) := by
    unfold be32; omega
  have hf : be32 b0 b1 b2 b3 = 0xFFFFFFFF ↔
      (b0 = 0xFF ∧ b1 = 0xFF ∧ b2 = 0xFF ∧ b3 = 0xFF) := by
    unfold be32; omega
  have hs : ("No SPI response (disconnected)" : String) ≠
      "SPI bus error (all high)" := by decide
  refine ⟨?_, ?_, ?_⟩ <;> unfold read_raw <;> split_ifs with ha hb <;>
    simp_all [Prod.mk.injEq]

/-- C1 witness: on the concrete frame `01 91 C0 00` the transaction succeeds
with the big-endian value, and the degenerate frames map to their errors. -/
theorem read_raw_classifies_witness :
    (0x01 : Nat) < 256 ∧
    (read_raw 0x01 0x91 0xC0 0x00 = (some (be32 0x01 0x91 0xC0 0x00), none)) := by
  have h := read_raw_classifies 0x01 0x91 0xC0 0x00
    (by decide) (by decide) (by decide) (by decide)
  exact ⟨by decide, h.2.2 (by decide) (by decide)⟩

/-- C2: for every 32-bit frame with bit 16 clear, decoding yields an empty
fault and a populated thermocouple temperature equal to the 14-bit field in
bits 31–18, sign-extended by subtracting 0x4000 when bit 31 is set, times
0.25 — regardless of bits 0–2. -/
theorem decode_bit16_clear_tc (rv : Nat) (h : rv &&& 0x10000 = 0) :
    (decode rv).fault = none ∧
    (decode rv).tc_temp = some
      (((((rv >>> 18) &&& 0x3FFF : Nat) : ℚ) -
        (if rv &&& 0x80000000 ≠ 0 then (0x4000 : ℚ) else 0)) * 0.25) := by
  have hfault := decode_fault_of_bit16_clear rv h
  refine ⟨hfault, ?_⟩
  rw [decode_tc_eq, hfault]
  rw [if_neg (by decide : ¬ (truthy none = true))]
  rw [Option.some.injEq]
  split_ifs with hb <;> push_cast <;> ring

/-- C2 witness: the frame 0x00000007 has bit 16 clear and bits 0–2 set, and
decodes to no fault with thermocouple temperature 0. -/
theorem decode_bit16_clear_tc_witness :
    (7 : Nat) &&& 0x10000 = 0 ∧
    (decode 7).fault = none ∧ (decode 7).tc_temp = some 0 := by
  have h7 : (7 : Nat) &&& 0x10000 = 0 := by decide
  obtain ⟨hf, ht⟩ := decode_bit16_clear_tc 7 h7
  refine ⟨h7, hf, ?_⟩
  rw [ht]
  norm_num [show (7 : Nat) >>> 18 &&& 0x3FFF = 0 from by decide,
    show (7 : Nat) &&& 0x80000000 = 0 from by decide]

/-- C3 counterexample: `get_fault_string` itself does not gate on bit 16 —
on the value 1 (bit 16 clear, bit 0 set) it reports an open circuit instead
of returning empty. -/
theorem get_fault_string_bit16_clear_cex :
    (1 : Nat) &&& 0x10000 = 0 ∧ get_fault_string 1 = some "Open Circuit" := by
  constructor
  · decide
  · decide

/-- C3 amended: with bit 16 clear, the fault produced by `read_all`'s
decoding is empty regardless of bits 0–2, because `get_fault_string` is only
consulted when bit 16 is set; `get_fault_string` itself returns empty
exactly when bits 0–2 are also all clear. -/
theorem fault_empty_of_bit16_clear (rv : Nat) (h : rv &&& 0x10000 = 0) :
    (decode rv).fault = none ∧
    (get_fault_string rv = none ↔
      (rv &&& 0x01 = 0 ∧ rv &&& 0x02 = 0 ∧ rv &&& 0x04 = 0)) := by
  refine ⟨decode_fault_of_bit16_clear rv h, ?_⟩
  unfold get_fault_string
  simp only [FAULT_OPEN, FAULT_GND, FAULT_VCC, FAULT_GENERIC]
  by_cases h1 : rv &&& 1 = 0 <;> by_cases h2 : rv &&& 2 = 0 <;>
    by_cases h4 : rv &&& 4 = 0 <;> simp_all

/-- C3 amended witness: on the value 1 the decoded fault is empty although
bit 0 is set, and `get_fault_string` is nonempty there. -/
theorem fault_empty_of_bit16_clear_witness :
    (1 : Nat) &&& 0x10000 = 0 ∧
    (decode 1).fault = none ∧ ¬ get_fault_string 1 = none := by
  have h1 : (1 : Nat) &&& 0x10000 = 0 := by decide
  obtain ⟨hd, hiff⟩ := fault_empty_of_bit16_clear 1 h1
  refine ⟨h1, hd, ?_⟩
  rw [hiff]
  decide


/-- When any of the specific fault bits D0–D2 is set, `get_fault_string`
returns the composite of the matching names in bit order, and that string is
truthy. -/
lemma get_fault_string_of_specific (rv : Nat)
    (hs : rv &&& 0x01 ≠ 0 ∨ rv &&& 0x02 ≠ 0 ∨ rv &&& 0x04 ≠ 0) :
    get_fault_string rv = some (String.intercalate " + "
      ((if rv &&& 0x01 ≠ 0 then ["Open Circuit"] else []) ++
       (if rv &&& 0x02 ≠ 0 then ["Short to GND"] else []) ++
       (if rv &&& 0x04 ≠ 0 then ["Short to VCC"] else []))) ∧
    truthy (get_fault_string rv) = true := by
  unfold get_fault_string
  simp only [FAULT_OPEN, FAULT_GND, FAULT_VCC]
  by_cases h1 : rv &&& 1 = 0 <;> by_cases h2 : rv &&& 2 = 0 <;>
    by_cases h4 : rv &&& 4 = 0 <;> simp_all [truthy] <;> decide

/-- C4: for every frame with bit 16 set and at least one of bits 0–2 set,
decoding produces a fault naming exactly the matching causes among open
circuit (bit 0), short-to-GND (bit 1) and short-to-VCC (bit 2), joined in
bit order, and the thermocouple temperature is absent. -/
theorem decode_composite_fault (rv : Nat) (h16 : rv &&& 0x10000 ≠ 0)
    (hs : rv &&& 0x01 ≠ 0 ∨ rv &&& 0x02 ≠ 0 ∨ rv &&& 0x04 ≠ 0) :
    (decode rv).fault = some (String.intercalate " + "
      ((if rv &&& 0x01 ≠ 0 then ["Open Circuit"] else []) ++
       (if rv &&& 0x02 ≠ 0 then ["Short to GND"] else []) ++
       (if rv &&& 0x04 ≠ 0 then ["Short to VCC"] else []))) ∧
    (decode rv).tc_temp = none := by
  obtain ⟨hgf, htr⟩ := get_fault_string_of_specific rv hs
  have hfault : (decode rv).fault = get_fault_string rv := by
    rw [decode_fault_eq, if_pos (by simpa [FAULT_GENERIC] using h16)]
  refine ⟨by rw [hfault, hgf], ?_⟩
  rw [decode_tc_eq, if_pos (by rw [hfault]; exact htr)]

/-- C4 witness: the frame 0x00010003 (bit 16, bits 0 and 1 set) reports
"Open Circuit + Short to GND" and no thermocouple temperature. -/
theorem decode_composite_fault_witness :
    (0x10003 : Nat) &&& 0x10000 ≠ 0 ∧ (0x10003 : Nat) &&& 0x01 ≠ 0 ∧
    (decode 0x10003).fault = some "Open Circuit + Short to GND" ∧
    (decode 0x10003).tc_temp = none := by
  have h16 : (0x10003 : Nat) &&& 0x10000 ≠ 0 := by decide
  have h1 : (0x10003 : Nat) &&& 0x01 ≠ 0 := by decide
  obtain ⟨hf, ht⟩ := decode_composite_fault 0x10003 h16 (Or.inl h1)
  refine ⟨h16, h1, ?_, ht⟩
  rw [hf]
  decide

/-- C5: for every frame with bit 16 set and bits 0–2 all clear, decoding
yields the fault "Unknown Fault" and no thermocouple temperature. -/
theorem decode_unknown_fault (rv : Nat) (h16 : rv &&& 0x10000 ≠ 0)
    (h1 : rv &&& 0x01 = 0) (h2 : rv &&& 0x02 = 0) (h4 : rv &&& 0x04 = 0) :
    (decode rv).fault = some "Unknown Fault" ∧
    (decode rv).tc_temp = none := by
  have hfault : (decode rv).fault = some "Unknown Fault" := by
    rw [decode_fault_eq, if_pos (by simpa [FAULT_GENERIC] using h16)]
    unfold get_fault_string
    simp [FAULT_OPEN, FAULT_GND, FAULT_VCC, FAULT_GENERIC, h1, h2, h4, h16]
  refine ⟨hfault, ?_⟩
  rw [decode_tc_eq, if_pos (by rw [hfault]; decide)]

/-- C5 witness: the frame 0x00010000 decodes to "Unknown Fault" with no
thermocouple temperature. -/
theorem decode_unknown_fault_witness :
    (0x10000 : Nat) &&& 0x10000 ≠ 0 ∧ (0x10000 : Nat) &&& 0x01 = 0 ∧
    (decode 0x10000).fault = some "Unknown Fault" ∧
    (decode 0x10000).tc_temp = none := by
  have h16 : (0x10000 : Nat) &&& 0x10000 ≠ 0 := by decide
  obtain ⟨hf, ht⟩ := decode_unknown_fault 0x10000 h16
    (by decide) (by decide) (by decide)
  exact ⟨h16, by decide, hf, ht⟩

/-- C6: whenever the transaction succeeds, the internal temperature is
populated — independent of any fault state — and equals the 11-bit field in
bits 4–14, sign-extended by subtracting 0x800 when bit 15 is set, times
0.0625. -/
theorem read_all_internal_always (b0 b1 b2 b3 : Nat)
    (h : (read_all b0 b1 b2 b3).connected = true) :
    (read_all b0 b1 b2 b3).internal_temp = some
      (((((be32 b0 b1 b2 b3 >>> 4) &&& 0x7FF : Nat) : ℚ) -
        (if be32 b0 b1 b2 b3 &&& 0x8000 ≠ 0 then (0x800 : ℚ) else 0)) *
        0.0625) := by
  rw [read_all_eq_decode b0 b1 b2 b3 h, decode_internal_eq,
    Option.some.injEq]
  split_ifs with hb <;> push_cast <;> ring

/-- C6 witness: on the frame `00 00 01 00` (value 0x100) the driver is
connected and reports an internal temperature of exactly 1 °C. -/
theorem read_all_internal_always_witness :
    (read_all 0x00 0x00 0x01 0x00).connected = true ∧
    (read_all 0x00 0x00 0x01 0x00).internal_temp = some 1 := by
  have hc : (read_all 0x00 0x00 0x01 0x00).connected = true := by decide
  refine ⟨hc, ?_⟩
  rw [read_all_internal_always 0x00 0x00 0x01 0x00 hc]
  norm_num [be32, show ((256 : Nat) >>> 4) &&& 0x7FF = 16 from by decide,
    show (256 : Nat) &&& 0x8000 = 0 from by decide]

/-- C7: the frame 0xFD800000 — 14-bit two's-complement field 0x3F60 = -160
in bits 31–18, bits 0–17 zero — decodes through `read_all` to a
thermocouple temperature of -40.0 °C, internal temperature 0.0 °C and an
empty fault. -/
theorem read_all_neg40_roundtrip :
    (read_all 0xFD 0x80 0x00 0x00).raw = some 0xFD800000 ∧
    (read_all 0xFD 0x80 0x00 0x00).tc_temp = some (-40) ∧
    (read_all 0xFD 0x80 0x00 0x00).internal_temp = some 0 ∧
    (read_all 0xFD 0x80 0x00 0x00).fault = none := by
  have hc : (read_all 0xFD 0x80 0x00 0x00).connected = true := by decide
  have hbe : be32 0xFD 0x80 0x00 0x00 = 0xFD800000 := by decide
  rw [read_all_eq_decode _ _ _ _ hc, hbe]
  have hfault : (decode 0xFD800000).fault = none :=
    decode_fault_of_bit16_clear _ (by decide)
  refine ⟨decode_raw_eq _, ?_, ?_, hfault⟩
  · rw [decode_tc_eq, hfault, if_neg (by decide : ¬ (truthy none = true)),
      Option.some.injEq]
    rw [if_pos (by decide : (0xFD800000 : Nat) &&& 0x80000000 ≠ 0)]
    norm_num [show (0xFD800000 : Nat) >>> 18 &&& 0x3FFF = 0x3F60 from
      by decide]
  · rw [decode_internal_eq, Option.some.injEq]
    rw [if_neg (by decide : ¬ (0xFD800000 : Nat) &&& 0x8000 ≠ 0)]
    norm_num [show (0xFD800000 : Nat) >>> 4 &&& 0x7FF = 0 from by decide]

/-- C8: on a transport failure (all-zero or all-ones frame) `read_all`
reports `connected = false`, absent raw value and temperatures, and the
transport error message in the fault field. -/
theorem read_all_transport_failure (b0 b1 b2 b3 : Nat)
    (h : (b0 = 0x00 ∧ b1 = 0x00 ∧ b2 = 0x00 ∧ b3 = 0x00) ∨
         (b0 = 0xFF ∧ b1 = 0xFF ∧ b2 = 0xFF ∧ b3 = 0xFF)) :
    (read_all b0 b1 b2 b3).connected = false ∧
    (read_all b0 b1 b2 b3).raw = none ∧
    (read_all b0 b1 b2 b3).tc_temp = none ∧
    (read_all b0 b1 b2 b3).internal_temp = none ∧
    (b0 = 0x00 →
      (read_all b0 b1 b2 b3).fault = some "No SPI response (disconnected)") ∧
    (b0 = 0xFF →
      (read_all b0 b1 b2 b3).fault = some "SPI bus error (all high)") := by
  rcases h with ⟨rfl, rfl, rfl, rfl⟩ | ⟨rfl, rfl, rfl, rfl⟩ <;> decide

/-- C8 witness: the all-zero frame yields a disconnected reading whose fault
is the transport message. -/
theorem read_all_transport_failure_witness :
    ((0 : Nat) = 0 ∧ (0 : Nat) = 0 ∧ (0 : Nat) = 0 ∧ (0 : Nat) = 0) ∧
    (read_all 0 0 0 0).connected = false ∧
    (read_all 0 0 0 0).fault = some "No SPI response (disconnected)" := by
  have h := read_all_transport_failure 0 0 0 0 (Or.inl ⟨rfl, rfl, rfl, rfl⟩)
  exact ⟨⟨rfl, rfl, rfl, rfl⟩, h.1, h.2.2.2.2.1 rfl⟩

/-- When the fault of a decoded reading is falsy, the thermocouple
temperature is populated. -/
lemma decode_tc_isSome_of_fault_falsy (rv : Nat)
    (h : truthy (decode rv).fault = false) :
    ∃ t : ℚ, (decode rv).tc_temp = some t := by
  rw [decode_tc_eq, if_neg (by simp [h])]
  exact ⟨_, rfl⟩

/-- C9: `read_temp_c` overloads its single return value across three
meanings: Python `False` exactly when the transport failed, Python `None`
exactly when connected with a truthy fault, and otherwise the decoded
thermocouple temperature as a number. -/
theorem read_temp_c_tristate (b0 b1 b2 b3 : Nat) :
    (read_temp_c b0 b1 b2 b3 = LegacyTemp.boolFalse ↔
      (read_all b0 b1 b2 b3).connected = false) ∧
    (read_temp_c b0 b1 b2 b3 = LegacyTemp.pyNone ↔
      ((read_all b0 b1 b2 b3).connected = true ∧
        truthy (read_all b0 b1 b2 b3).fault = true)) ∧
    (∀ t : ℚ, read_temp_c b0 b1 b2 b3 = LegacyTemp.num t ↔
      ((read_all b0 b1 b2 b3).connected = true ∧
        truthy (read_all b0 b1 b2 b3).fault = false ∧
        (read_all b0 b1 b2 b3).tc_temp = some t)) := by
  by_cases hc : (read_all b0 b1 b2 b3).connected = false
  · simp [read_temp_c, hc]
  · have hc' : (read_all b0 b1 b2 b3).connected = true := by
      revert hc; cases (read_all b0 b1 b2 b3).connected <;> simp
    by_cases hf : truthy (read_all b0 b1 b2 b3).fault = true
    · simp [read_temp_c, hc, hc', hf]
    · have hfalse : truthy (read_all b0 b1 b2 b3).fault = false := by
        revert hf; cases truthy (read_all b0 b1 b2 b3).fault <;> simp
      obtain ⟨t0, ht0⟩ : ∃ t, (read_all b0 b1 b2 b3).tc_temp = some t := by
        rw [read_all_eq_decode b0 b1 b2 b3 hc']
        refine decode_tc_isSome_of_fault_falsy _ ?_
        rw [← read_all_eq_decode b0 b1 b2 b3 hc']
        exact hfalse
      simp [read_temp_c, hc, hc', hfalse, ht0]

/-- Bits 31–18 of a word as a 14-bit field: bounded by 0x3FFF, at least
0x2000 when bit 31 is set, and below 0x2000 when bit 31 is clear. -/
lemma tc_field_bounds (rv : Nat) :
    ((rv >>> 18) &&& 0x3FFF < 16384) ∧
    (rv &&& 0x80000000 ≠ 0 → 8192 ≤ (rv >>> 18) &&& 0x3FFF) ∧
    (¬ rv &&& 0x80000000 ≠ 0 → (rv >>> 18) &&& 0x3FFF < 8192) := by
  have hmod : (rv >>> 18) &&& 0x3FFF = rv / 2 ^ 18 % 2 ^ 14 := by
    rw [show (0x3FFF : Nat) = 2 ^ 14 - 1 from by norm_num,
      Nat.and_pow_two_sub_one_eq_mod, Nat.shiftRight_eq_div_pow]
  have htop : rv &&& 0x80000000 ≠ 0 ↔ rv / 2 ^ 31 % 2 = 1 := by
    rw [show (0x80000000 : Nat) = 2 ^ 31 from by norm_num, Nat.and_two_pow,
      Nat.testBit_to_div_mod]
    by_cases hd : rv / 2 ^ 31 % 2 = 1 <;> simp [hd]
  have hdd : rv / 2 ^ 31 = rv / 2 ^ 18 / 2 ^ 13 := by
    rw [Nat.div_div_eq_div_mul]; norm_num
  rw [hmod, htop, hdd,
    show (2 : Nat) ^ 18 = 262144 from by norm_num,
    show (2 : Nat) ^ 13 = 8192 from by norm_num,
    show (2 : Nat) ^ 14 = 16384 from by norm_num]
  omega

/-- C10: for every frame on which the transaction succeeds, the internal
temperature is an integer multiple of 0.0625 in [-128, 127.9375], and the
thermocouple temperature, when present, is an integer multiple of 0.25 in
[-2048, 2047.75]. -/
theorem read_all_range_quantization (b0 b1 b2 b3 : Nat)
    (h : (read_all b0 b1 b2 b3).connected = true) :
    (∃ t : ℚ, (read_all b0 b1 b2 b3).internal_temp = some t ∧
      (∃ k : ℤ, t = (k : ℚ) * 0.0625) ∧ -128 ≤ t ∧ t ≤ 127.9375) ∧
    (∀ t : ℚ, (read_all b0 b1 b2 b3).tc_temp = some t →
      (∃ k : ℤ, t = (k : ℚ) * 0.25) ∧ -2048 ≤ t ∧ t ≤ 2047.75) := by
  rw [read_all_eq_decode b0 b1 b2 b3 h]
  constructor
  · rw [decode_internal_eq]
    have hle : (be32 b0 b1 b2 b3 >>> 4) &&& 0x7FF ≤ 0x7FF :=
      Nat.and_le_right
    set n : Nat := (be32 b0 b1 b2 b3 >>> 4) &&& 0x7FF with hn
    set k : Int :=
      if be32 b0 b1 b2 b3 &&& 0x8000 ≠ 0 then (n : Int) - 0x800
      else (n : Int) with hk
    have hkb : -2048 ≤ k ∧ k ≤ 2047 := by
      rw [hk]; split_ifs <;> omega
    refine ⟨(k : ℚ) * 0.0625, rfl, ⟨k, rfl⟩, ?_, ?_⟩
    · have hcast : ((-2048 : Int) : ℚ) ≤ (k : ℚ) := by
        exact_mod_cast hkb.1
      push_cast at hcast
      linarith
    · have hcast : (k : ℚ) ≤ ((2047 : Int) : ℚ) := by
        exact_mod_cast hkb.2
      push_cast at hcast
      linarith
  · intro t ht
    rw [decode_tc_eq] at ht
    by_cases hf : truthy (decode (be32 b0 b1 b2 b3)).fault = true
    · rw [if_pos hf] at ht
      exact absurd ht (by simp)
    · rw [if_neg hf, Option.some.injEq] at ht
      obtain ⟨hlt, hhi, hlo⟩ := tc_field_bounds (be32 b0 b1 b2 b3)
      set n : Nat := (be32 b0 b1 b2 b3 >>> 18) &&& 0x3FFF with hn
      set k : Int :=
        if be32 b0 b1 b2 b3 &&& 0x80000000 ≠ 0 then (n : Int) - 0x4000
        else (n : Int) with hk
      have hkb : -8192 ≤ k ∧ k ≤ 8191 := by
        rw [hk]; split_ifs with hb
        · have := hhi hb; omega
        · have := hlo hb; omega
      have h1 : ((-8192 : Int) : ℚ) ≤ (k : ℚ) := by exact_mod_cast hkb.1
      have h2 : (k : ℚ) ≤ ((8191 : Int) : ℚ) := by exact_mod_cast hkb.2
      push_cast at h1 h2
      refine ⟨⟨k, ht.symm⟩, ?_, ?_⟩
      · rw [← ht]; linarith
      · rw [← ht]; linarith

/-- C10 witness: on the non-degenerate frame `00 00 00 01` the internal
temperature satisfies the quantization and range invariant. -/
theorem read_all_range_quantization_witness :
    (read_all 0 0 0 1).connected = true ∧
    (∃ t : ℚ, (read_all 0 0 0 1).internal_temp = some t ∧
      (∃ k : ℤ, t = (k : ℚ) * 0.0625) ∧ -128 ≤ t ∧ t ≤ 127.9375) := by
  have hc : (read_all 0 0 0 1).connected = true := by decide
  exact ⟨hc, (read_all_range_quantization 0 0 0 1 hc).1⟩

end MAX31855
